import Mathlib

/-
Verification of the workflow-construction layer of aslprep
(src/aslprep/workflows/bold/cbf.py): the four workflow constructors
init_cbf_compt_wf, init_cbfqc_compt_wf, init_cbfplot_wf and
init_cbfroiquant_wf, their node/edge wiring, the index-selector
functions applied on edges, and the construction-time metadata
evaluation of the BASIL (Bayesian) estimator node.

The embedding is shallow: each workflow's declared nodes become an
inductive type, each `workflow.connect` entry becomes one element of an
explicit connection list (source node, source port, optional selector
function tag, destination node, destination port), and the pure helper
functions (`_pick_gm`, `_pick_wm`, `_pick_csf`, `pcaslorasl`, the
metadata dictionary accesses in the BASILCBF node construction) become
Lean functions mirroring the Python semantics, with Python exceptions
modelled as an explicit error result.
-/

namespace Aslprep

/-- Python list subscription `l[i]`, including negative-index wraparound:
a negative index counts from the end; an out-of-range access is an
IndexError, modelled as `none`. -/
def pyGet {α : Type} (l : List α) (i : Int) : Option α :=
  let j : Int := if i < 0 then i + l.length else i
  if 0 ≤ j then l[j.toNat]? else none

/-- Selector `_pick_csf` of cbf.py: `return files[-1]` (defined once in
init_cbf_compt_wf and again, identically, in init_cbfqc_compt_wf). -/
def _pick_csf {α : Type} (files : List α) : Option α := pyGet files (-1)

/-- Selector `_pick_gm` of cbf.py: `return files[0]`. -/
def _pick_gm {α : Type} (files : List α) : Option α := pyGet files 0

/-- Selector `_pick_wm` of cbf.py: `return files[1]`. -/
def _pick_wm {α : Type} (files : List α) : Option α := pyGet files 1

/-- Whether `small` is an initial segment of `big` (helper for the
Python substring test). -/
def startsWithChars : List Char → List Char → Bool
  | _, [] => true
  | [], _ :: _ => false
  | c :: cs, d :: ds => c == d && startsWithChars cs ds

/-- Whether `needle` occurs contiguously inside the second list
(helper for the Python substring test). -/
def containsChars (needle : List Char) : List Char → Bool
  | [] => startsWithChars [] needle
  | c :: cs => startsWithChars (c :: cs) needle || containsChars needle cs

/-- Python's `needle in hay` on strings: substring containment. -/
def pyIn (needle hay : String) : Bool := containsChars needle.data hay.data

/-- Python exceptions that the modelled code can raise.
`unrecognizedLabelingTypeError` is the error name the specification
assigns to an unrecognized labeling type; it is included in the error
taxonomy so that statements about it can be made, but nothing in
cbf.py ever raises it. -/
inductive PyErr where
  | keyError (key : String)
  | unboundLocalError (var : String)
  | unrecognizedLabelingTypeError
deriving DecidableEq

/-- Result of running a piece of Python code: a value or a raised
exception. -/
inductive PyResult (α : Type) where
  | ok (val : α)
  | raise (err : PyErr)
deriving DecidableEq

/-- Whether a result is a raised exception. -/
def PyResult.raised {α : Type} : PyResult α → Bool
  | .ok _ => false
  | .raise _ => true

/-- Python dictionary subscription `metadata[key]` on an optional
field: a missing key raises KeyError. -/
def pyKey {α : Type} (v : Option α) (key : String) : PyResult α :=
  match v with
  | some x => .ok x
  | none => .raise (.keyError key)

/-- BIDS metadata dictionary restricted to the keys cbf.py reads at
workflow-construction time; a `none` field models an absent key. -/
structure Metadata where
  M0 : Option ℚ
  PostLabelingDelay : Option ℚ
  RepetitionTime : Option ℚ
  LabelingDuration : Option ℚ
  LabelingType : Option String
deriving DecidableEq

/-- Function `pcaslorasl` of cbf.py:
`if 'CASL' in metadata["LabelingType"]: pcasl = True`
`elif 'PASL' in metadata["LabelingType"]: pcasl = False`
`return pcasl`.
When neither marker occurs, `pcasl` was never assigned, so the
`return` raises UnboundLocalError; a missing key raises KeyError. -/
def pcaslorasl (metadata : Metadata) : PyResult Bool :=
  match pyKey metadata.LabelingType "LabelingType" with
  | .raise e => .raise e
  | .ok lt =>
    if pyIn "CASL" lt then .ok true
    else if pyIn "PASL" lt then .ok false
    else .raise (.unboundLocalError "pcasl")

example : pcaslorasl ⟨none, none, none, none, some "PCASL"⟩ = .ok true := by decide
example : pcaslorasl ⟨none, none, none, none, some "PASL"⟩ = .ok false := by decide
example : pcaslorasl ⟨none, none, none, none, some "VSASL"⟩ =
    .raise (.unboundLocalError "pcasl") := by decide
example : _pick_csf ["g", "w", "c"] = some "c" := by decide
example : _pick_gm ["g", "w", "c"] = some "g" := by decide
example : _pick_wm ["g", "w", "c"] = some "w" := by decide

/-- The named selector functions that cbf.py passes on connections
(`_pick_gm`, `_pick_wm`, `_pick_csf`, `_getfiledir`); a connection
tagged with one applies that function to the producer's output before
delivering it to the consumer port. -/
inductive Sel where
  | pickGM
  | pickWM
  | pickCSF
  | getfiledir
deriving DecidableEq

/-- One entry of a `workflow.connect` list: producer node and output
port, an optional selector function applied on the edge, consumer node
and input port. -/
structure Conn (N : Type) where
  src : N
  srcPort : String
  sel : Option Sel
  dst : N
  dstPort : String
deriving DecidableEq

/-- The nodes declared by init_cbf_compt_wf: identity input/output
pseudo-nodes, the three tissue-map resampling nodes, the extraction
node, the three CBF estimator nodes and the mask-refinement node. -/
inductive CNode where
  | inputnode
  | outputnode
  | csf_tfm
  | wm_tfm
  | gm_tfm
  | extractcbf
  | computecbf
  | scorescrub
  | basilcbf
  | refinemaskj
deriving DecidableEq

/-- The three CBF estimator nodes of init_cbf_compt_wf: basic model
(computecbf), outlier-robust SCORE/SCRUB (scorescrub) and Bayesian
BASIL (basilcbf). -/
def CNode.isEstimator : CNode → Bool
  | .computecbf => true
  | .scorescrub => true
  | .basilcbf => true
  | _ => false

/-- The `workflow.connect` list of init_cbf_compt_wf, one entry per
(output port, input port) pair, in source order. -/
def cbfComptConns : List (Conn CNode) :=
  [⟨.inputnode, "bold", none, .extractcbf, "in_file"⟩,
   ⟨.inputnode, "bold_file", none, .extractcbf, "bold_file"⟩,
   ⟨.extractcbf, "out_file", none, .computecbf, "in_cbf"⟩,
   ⟨.extractcbf, "out_avg", none, .computecbf, "in_m0file"⟩,
   ⟨.inputnode, "t1w_mask", none, .refinemaskj, "in_t1mask"⟩,
   ⟨.inputnode, "bold_mask", none, .refinemaskj, "in_boldmask"⟩,
   ⟨.inputnode, "t1_bold_xform", none, .refinemaskj, "transforms"⟩,
   ⟨.refinemaskj, "out_mask", none, .computecbf, "in_mask"⟩,
   ⟨.refinemaskj, "out_mask", none, .scorescrub, "in_mask"⟩,
   ⟨.refinemaskj, "out_mask", none, .basilcbf, "mask"⟩,
   ⟨.inputnode, "bold", some .getfiledir, .basilcbf, "out_basename"⟩,
   ⟨.refinemaskj, "out_mask", none, .extractcbf, "in_mask"⟩,
   ⟨.inputnode, "bold_mask", none, .csf_tfm, "reference_image"⟩,
   ⟨.inputnode, "t1_bold_xform", none, .csf_tfm, "transforms"⟩,
   ⟨.inputnode, "t1w_tpms", some .pickCSF, .csf_tfm, "input_image"⟩,
   ⟨.inputnode, "bold_mask", none, .wm_tfm, "reference_image"⟩,
   ⟨.inputnode, "t1_bold_xform", none, .wm_tfm, "transforms"⟩,
   ⟨.inputnode, "t1w_tpms", some .pickWM, .wm_tfm, "input_image"⟩,
   ⟨.inputnode, "bold_mask", none, .gm_tfm, "reference_image"⟩,
   ⟨.inputnode, "t1_bold_xform", none, .gm_tfm, "transforms"⟩,
   ⟨.inputnode, "t1w_tpms", some .pickGM, .gm_tfm, "input_image"⟩,
   ⟨.computecbf, "out_cbf", none, .scorescrub, "in_file"⟩,
   ⟨.gm_tfm, "output_image", none, .scorescrub, "in_greyM"⟩,
   ⟨.wm_tfm, "output_image", none, .scorescrub, "in_whiteM"⟩,
   ⟨.csf_tfm, "output_image", none, .scorescrub, "in_csf"⟩,
   ⟨.extractcbf, "out_file", none, .basilcbf, "in_file"⟩,
   ⟨.gm_tfm, "output_image", none, .basilcbf, "pvgm"⟩,
   ⟨.wm_tfm, "output_image", none, .basilcbf, "pvwm"⟩,
   ⟨.extractcbf, "out_avg", none, .basilcbf, "mzero"⟩,
   ⟨.basilcbf, "out_cbfb", none, .outputnode, "out_cbfb"⟩,
   ⟨.basilcbf, "out_cbfpv", none, .outputnode, "out_cbfpv"⟩,
   ⟨.computecbf, "out_cbf", none, .outputnode, "out_cbf"⟩,
   ⟨.computecbf, "out_mean", none, .outputnode, "out_mean"⟩,
   ⟨.scorescrub, "out_score", none, .outputnode, "out_score"⟩,
   ⟨.scorescrub, "out_scoreindex", none, .outputnode, "out_scoreindex"⟩,
   ⟨.scorescrub, "out_avgscore", none, .outputnode, "out_avgscore"⟩,
   ⟨.scorescrub, "out_scrub", none, .outputnode, "out_scrub"⟩]

/-- The nodes declared by init_cbfqc_compt_wf: input/output
pseudo-nodes, three tissue-map resampling nodes, the anatomical-mask
resampling node (named 'masktonative' in the graph), the template
brain-mask resampling node and the QC-computation node. -/
inductive QNode where
  | inputnode
  | outputnode
  | csf_tfm
  | wm_tfm
  | gm_tfm
  | mask_tfm
  | resample
  | qccompute
deriving DecidableEq

/-- The `workflow.connect` list of init_cbfqc_compt_wf, in source
order. -/
def qcConns : List (Conn QNode) :=
  [⟨.inputnode, "bold_mask", none, .csf_tfm, "reference_image"⟩,
   ⟨.inputnode, "t1_bold_xform", none, .csf_tfm, "transforms"⟩,
   ⟨.inputnode, "t1w_tpms", some .pickCSF, .csf_tfm, "input_image"⟩,
   ⟨.inputnode, "bold_mask", none, .wm_tfm, "reference_image"⟩,
   ⟨.inputnode, "t1_bold_xform", none, .wm_tfm, "transforms"⟩,
   ⟨.inputnode, "t1w_tpms", some .pickWM, .wm_tfm, "input_image"⟩,
   ⟨.inputnode, "bold_mask", none, .gm_tfm, "reference_image"⟩,
   ⟨.inputnode, "t1_bold_xform", none, .gm_tfm, "transforms"⟩,
   ⟨.inputnode, "t1w_tpms", some .pickGM, .gm_tfm, "input_image"⟩,
   ⟨.inputnode, "bold_mask", none, .mask_tfm, "reference_image"⟩,
   ⟨.inputnode, "t1_bold_xform", none, .mask_tfm, "transforms"⟩,
   ⟨.inputnode, "t1w_mask", none, .mask_tfm, "input_image"⟩,
   ⟨.mask_tfm, "output_image", none, .qccompute, "in_t1mask"⟩,
   ⟨.inputnode, "bold_mask", none, .qccompute, "in_boldmask"⟩,
   ⟨.inputnode, "confmat", none, .qccompute, "in_confmat"⟩,
   ⟨.inputnode, "bold_mask_std", some .pickCSF, .qccompute, "in_boldmaskstd"⟩,
   ⟨.inputnode, "bold_mask_std", some .pickCSF, .resample, "master"⟩,
   ⟨.resample, "out_file", none, .qccompute, "in_templatemask"⟩,
   ⟨.gm_tfm, "output_image", none, .qccompute, "in_greyM"⟩,
   ⟨.wm_tfm, "output_image", none, .qccompute, "in_whiteM"⟩,
   ⟨.csf_tfm, "output_image", none, .qccompute, "in_csf"⟩,
   ⟨.inputnode, "scrub", none, .qccompute, "in_scrub"⟩,
   ⟨.inputnode, "meancbf", none, .qccompute, "in_meancbf"⟩,
   ⟨.inputnode, "avgscore", none, .qccompute, "in_avgscore"⟩,
   ⟨.inputnode, "basil", none, .qccompute, "in_basil"⟩,
   ⟨.inputnode, "pv", none, .qccompute, "in_pvc"⟩,
   ⟨.qccompute, "qc_file", none, .outputnode, "qc_file"⟩]

/-- The nodes declared by init_cbfplot_wf: input/output pseudo-nodes,
the transform-merging node, the carpet-segmentation resampling node,
the time-series summary node, five per-variant summary nodes and six
derivative-sink report nodes. -/
inductive PNode where
  | inputnode
  | outputnode
  | mrg_xfms
  | resample_parc
  | cbftssummary
  | cbfsummary
  | scoresummary
  | scrubsummary
  | basilsummary
  | pvcsummary
  | ds_report_cbftsplot
  | ds_report_cbfplot
  | ds_report_scoreplot
  | ds_report_scrubplot
  | ds_report_basilplot
  | ds_report_pvcplot
deriving DecidableEq

/-- The `workflow.connect` list of init_cbfplot_wf, in source order. -/
def plotConns : List (Conn PNode) :=
  [⟨.inputnode, "t1_bold_xform", none, .mrg_xfms, "in1"⟩,
   ⟨.inputnode, "std2anat_xfm", none, .mrg_xfms, "in2"⟩,
   ⟨.inputnode, "bold_mask", none, .resample_parc, "reference_image"⟩,
   ⟨.mrg_xfms, "out", none, .resample_parc, "transforms"⟩,
   ⟨.resample_parc, "output_image", none, .cbftssummary, "seg_file"⟩,
   ⟨.inputnode, "cbf_ts", none, .cbftssummary, "cbf_ts"⟩,
   ⟨.inputnode, "confounds_file", none, .cbftssummary, "conf_file"⟩,
   ⟨.inputnode, "scoreindex", none, .cbftssummary, "score_file"⟩,
   ⟨.cbftssummary, "out_file", none, .ds_report_cbftsplot, "in_file"⟩,
   ⟨.cbftssummary, "out_file", none, .outputnode, "cbf_carpetplot"⟩,
   ⟨.inputnode, "cbf", none, .cbfsummary, "cbf"⟩,
   ⟨.inputnode, "bold_ref", none, .cbfsummary, "ref_vol"⟩,
   ⟨.cbfsummary, "out_file", none, .ds_report_cbfplot, "in_file"⟩,
   ⟨.cbfsummary, "out_file", none, .outputnode, "cbf_summary_plot"⟩,
   ⟨.inputnode, "score", none, .scoresummary, "cbf"⟩,
   ⟨.inputnode, "bold_ref", none, .scoresummary, "ref_vol"⟩,
   ⟨.scoresummary, "out_file", none, .ds_report_scoreplot, "in_file"⟩,
   ⟨.scoresummary, "out_file", none, .outputnode, "score_summary_plot"⟩,
   ⟨.inputnode, "scrub", none, .scrubsummary, "cbf"⟩,
   ⟨.inputnode, "bold_ref", none, .scrubsummary, "ref_vol"⟩,
   ⟨.scrubsummary, "out_file", none, .ds_report_scrubplot, "in_file"⟩,
   ⟨.scrubsummary, "out_file", none, .outputnode, "scrub_summary_plot"⟩,
   ⟨.inputnode, "basil", none, .basilsummary, "cbf"⟩,
   ⟨.inputnode, "bold_ref", none, .basilsummary, "ref_vol"⟩,
   ⟨.basilsummary, "out_file", none, .ds_report_basilplot, "in_file"⟩,
   ⟨.basilsummary, "out_file", none, .outputnode, "basil_summary_plot"⟩,
   ⟨.inputnode, "pvc", none, .pvcsummary, "cbf"⟩,
   ⟨.inputnode, "bold_ref", none, .pvcsummary, "ref_vol"⟩,
   ⟨.pvcsummary, "out_file", none, .ds_report_pvcplot, "in_file"⟩,
   ⟨.pvcsummary, "out_file", none, .outputnode, "pvc_summary_plot"⟩]

/-- The five atlases statically enumerated by init_cbfroiquant_wf via
get_atlas: HarvardOxford, schaefer200x7, schaefer200x17, schaefer400x7,
schaefer400x17. -/
inductive Atlas where
  | hvox
  | sc207
  | sc217
  | sc407
  | sc417
deriving DecidableEq

/-- The five CBF variants fanned out by init_cbfroiquant_wf: basic cbf,
score, scrub, basil and partial-volume-corrected. -/
inductive Variant where
  | cbf
  | score
  | scrub
  | basil
  | pvc
deriving DecidableEq

/-- All atlases, in the order init_cbfroiquant_wf enumerates them. -/
def Atlas.all : List Atlas := [.hvox, .sc207, .sc217, .sc407, .sc417]

/-- All CBF variants, in the order init_cbfroiquant_wf wires them. -/
def Variant.all : List Variant := [.cbf, .score, .scrub, .basil, .pvc]

/-- The inputnode port carrying a given CBF variant in
init_cbfroiquant_wf. -/
def Variant.port : Variant → String
  | .cbf => "cbf"
  | .score => "score"
  | .scrub => "scrub"
  | .basil => "basil"
  | .pvc => "pvc"

/-- The outputnode-field tag of a given atlas in init_cbfroiquant_wf
(`hvoxf` for HarvardOxford, the schaefer short names otherwise). -/
def Atlas.tag : Atlas → String
  | .hvox => "hvoxf"
  | .sc207 => "sc207"
  | .sc217 => "sc217"
  | .sc407 => "sc407"
  | .sc417 => "sc417"

/-- The nodes declared by init_cbfroiquant_wf: input/output
pseudo-nodes, the transform-merging node, one atlas-resampling node per
atlas (hvoftrans, sc207trans, ...) and one region-quantification node
per (variant, atlas) pair (cbfroihv, score207, pvc417, ...). -/
inductive RNode where
  | inputnode
  | outputnode
  | mrg_xfms
  | trans (a : Atlas)
  | roi (v : Variant) (a : Atlas)
deriving DecidableEq

/-- Whether a node of init_cbfroiquant_wf is one of the 25
region-quantification (cbfqroiquant) nodes. -/
def RNode.isRoi : RNode → Bool
  | .roi _ _ => true
  | _ => false

/-- The node list of init_cbfroiquant_wf, in declaration order: the
pseudo-nodes and transform merge, the five atlas-resampling nodes, then
the 25 region-quantification nodes grouped by variant. -/
def rqNodes : List RNode :=
  [.inputnode, .outputnode, .mrg_xfms] ++ Atlas.all.map RNode.trans ++
    Variant.all.flatMap fun v => Atlas.all.map fun a => RNode.roi v a

set_option maxHeartbeats 2000000 in
/-- The `workflow.connect` list of init_cbfroiquant_wf, in source
order. -/
def rqConns : List (Conn RNode) :=
  [⟨.inputnode, "t1_bold_xform", none, .mrg_xfms, "in1"⟩,
   ⟨.inputnode, "std2anat_xfm", none, .mrg_xfms, "in2"⟩,
   ⟨.inputnode, "boldmask", none, .trans .hvox, "reference_image"⟩,
   ⟨.mrg_xfms, "out", none, .trans .hvox, "transforms"⟩,
   ⟨.inputnode, "boldmask", none, .trans .sc207, "reference_image"⟩,
   ⟨.mrg_xfms, "out", none, .trans .sc207, "transforms"⟩,
   ⟨.inputnode, "boldmask", none, .trans .sc217, "reference_image"⟩,
   ⟨.mrg_xfms, "out", none, .trans .sc217, "transforms"⟩,
   ⟨.inputnode, "boldmask", none, .trans .sc407, "reference_image"⟩,
   ⟨.mrg_xfms, "out", none, .trans .sc407, "transforms"⟩,
   ⟨.inputnode, "boldmask", none, .trans .sc417, "reference_image"⟩,
   ⟨.mrg_xfms, "out", none, .trans .sc417, "transforms"⟩,
   ⟨.trans .hvox, "output_image", none, .roi .cbf .hvox, "atlasfile"⟩,
   ⟨.trans .hvox, "output_image", none, .roi .score .hvox, "atlasfile"⟩,
   ⟨.trans .hvox, "output_image", none, .roi .scrub .hvox, "atlasfile"⟩,
   ⟨.trans .hvox, "output_image", none, .roi .basil .hvox, "atlasfile"⟩,
   ⟨.trans .hvox, "output_image", none, .roi .pvc .hvox, "atlasfile"⟩,
   ⟨.trans .sc207, "output_image", none, .roi .cbf .sc207, "atlasfile"⟩,
   ⟨.trans .sc207, "output_image", none, .roi .score .sc207, "atlasfile"⟩,
   ⟨.trans .sc207, "output_image", none, .roi .scrub .sc207, "atlasfile"⟩,
   ⟨.trans .sc207, "output_image", none, .roi .basil .sc207, "atlasfile"⟩,
   ⟨.trans .sc207, "output_image", none, .roi .pvc .sc207, "atlasfile"⟩,
   ⟨.trans .sc217, "output_image", none, .roi .cbf .sc217, "atlasfile"⟩,
   ⟨.trans .sc217, "output_image", none, .roi .score .sc217, "atlasfile"⟩,
   ⟨.trans .sc217, "output_image", none, .roi .scrub .sc217, "atlasfile"⟩,
   ⟨.trans .sc217, "output_image", none, .roi .basil .sc217, "atlasfile"⟩,
   ⟨.trans .sc217, "output_image", none, .roi .pvc .sc217, "atlasfile"⟩,
   ⟨.trans .sc407, "output_image", none, .roi .cbf .sc407, "atlasfile"⟩,
   ⟨.trans .sc407, "output_image", none, .roi .score .sc407, "atlasfile"⟩,
   ⟨.trans .sc407, "output_image", none, .roi .scrub .sc407, "atlasfile"⟩,
   ⟨.trans .sc407, "output_image", none, .roi .basil .sc407, "atlasfile"⟩,
   ⟨.trans .sc407, "output_image", none, .roi .pvc .sc407, "atlasfile"⟩,
   ⟨.trans .sc417, "output_image", none, .roi .cbf .sc417, "atlasfile"⟩,
   ⟨.trans .sc417, "output_image", none, .roi .score .sc417, "atlasfile"⟩,
   ⟨.trans .sc417, "output_image", none, .roi .scrub .sc417, "atlasfile"⟩,
   ⟨.trans .sc417, "output_image", none, .roi .basil .sc417, "atlasfile"⟩,
   ⟨.trans .sc417, "output_image", none, .roi .pvc .sc417, "atlasfile"⟩,
   ⟨.inputnode, "cbf", none, .roi .cbf .hvox, "in_cbf"⟩,
   ⟨.inputnode, "score", none, .roi .score .hvox, "in_cbf"⟩,
   ⟨.inputnode, "scrub", none, .roi .scrub .hvox, "in_cbf"⟩,
   ⟨.inputnode, "basil", none, .roi .basil .hvox, "in_cbf"⟩,
   ⟨.inputnode, "pvc", none, .roi .pvc .hvox, "in_cbf"⟩,
   ⟨.inputnode, "cbf", none, .roi .cbf .sc207, "in_cbf"⟩,
   ⟨.inputnode, "score", none, .roi .score .sc207, "in_cbf"⟩,
   ⟨.inputnode, "scrub", none, .roi .scrub .sc207, "in_cbf"⟩,
   ⟨.inputnode, "basil", none, .roi .basil .sc207, "in_cbf"⟩,
   ⟨.inputnode, "pvc", none, .roi .pvc .sc207, "in_cbf"⟩,
   ⟨.inputnode, "cbf", none, .roi .cbf .sc217, "in_cbf"⟩,
   ⟨.inputnode, "score", none, .roi .score .sc217, "in_cbf"⟩,
   ⟨.inputnode, "scrub", none, .roi .scrub .sc217, "in_cbf"⟩,
   ⟨.inputnode, "basil", none, .roi .basil .sc217, "in_cbf"⟩,
   ⟨.inputnode, "pvc", none, .roi .pvc .sc217, "in_cbf"⟩,
   ⟨.inputnode, "cbf", none, .roi .cbf .sc407, "in_cbf"⟩,
   ⟨.inputnode, "score", none, .roi .score .sc407, "in_cbf"⟩,
   ⟨.inputnode, "scrub", none, .roi .scrub .sc407, "in_cbf"⟩,
   ⟨.inputnode, "basil", none, .roi .basil .sc407, "in_cbf"⟩,
   ⟨.inputnode, "pvc", none, .roi .pvc .sc407, "in_cbf"⟩,
   ⟨.inputnode, "cbf", none, .roi .cbf .sc417, "in_cbf"⟩,
   ⟨.inputnode, "score", none, .roi .score .sc417, "in_cbf"⟩,
   ⟨.inputnode, "scrub", none, .roi .scrub .sc417, "in_cbf"⟩,
   ⟨.inputnode, "basil", none, .roi .basil .sc417, "in_cbf"⟩,
   ⟨.inputnode, "pvc", none, .roi .pvc .sc417, "in_cbf"⟩,
   ⟨.roi .cbf .hvox, "atlascsv", none, .outputnode, "cbf_hvoxf"⟩,
   ⟨.roi .cbf .sc207, "atlascsv", none, .outputnode, "cbf_sc207"⟩,
   ⟨.roi .cbf .sc217, "atlascsv", none, .outputnode, "cbf_sc217"⟩,
   ⟨.roi .cbf .sc407, "atlascsv", none, .outputnode, "cbf_sc407"⟩,
   ⟨.roi .cbf .sc417, "atlascsv", none, .outputnode, "cbf_sc417"⟩,
   ⟨.roi .score .hvox, "atlascsv", none, .outputnode, "score_hvoxf"⟩,
   ⟨.roi .score .sc207, "atlascsv", none, .outputnode, "score_sc207"⟩,
   ⟨.roi .score .sc217, "atlascsv", none, .outputnode, "score_sc217"⟩,
   ⟨.roi .score .sc407, "atlascsv", none, .outputnode, "score_sc407"⟩,
   ⟨.roi .score .sc417, "atlascsv", none, .outputnode, "score_sc417"⟩,
   ⟨.roi .scrub .hvox, "atlascsv", none, .outputnode, "scrub_hvoxf"⟩,
   ⟨.roi .scrub .sc207, "atlascsv", none, .outputnode, "scrub_sc207"⟩,
   ⟨.roi .scrub .sc217, "atlascsv", none, .outputnode, "scrub_sc217"⟩,
   ⟨.roi .scrub .sc407, "atlascsv", none, .outputnode, "scrub_sc407"⟩,
   ⟨.roi .scrub .sc417, "atlascsv", none, .outputnode, "scrub_sc417"⟩,
   ⟨.roi .basil .hvox, "atlascsv", none, .outputnode, "basil_hvoxf"⟩,
   ⟨.roi .basil .sc207, "atlascsv", none, .outputnode, "basil_sc207"⟩,
   ⟨.roi .basil .sc217, "atlascsv", none, .outputnode, "basil_sc217"⟩,
   ⟨.roi .basil .sc407, "atlascsv", none, .outputnode, "basil_sc407"⟩,
   ⟨.roi .basil .sc417, "atlascsv", none, .outputnode, "basil_sc417"⟩,
   ⟨.roi .pvc .hvox, "atlascsv", none, .outputnode, "pvc_hvoxf"⟩,
   ⟨.roi .pvc .sc207, "atlascsv", none, .outputnode, "pvc_sc207"⟩,
   ⟨.roi .pvc .sc217, "atlascsv", none, .outputnode, "pvc_sc217"⟩,
   ⟨.roi .pvc .sc407, "atlascsv", none, .outputnode, "pvc_sc407"⟩,
   ⟨.roi .pvc .sc417, "atlascsv", none, .outputnode, "pvc_sc417"⟩]

/-- Output list of a nipype `Merge(2)` utility node: the value of input
port in1 followed by the value of input port in2. -/
def mergeOut {α : Type} (in1 in2 : α) : List α := [in1, in2]

/-- A nonempty directed path through a connection list: one connection,
or a connection followed by a path from its destination. -/
inductive HasPath {N : Type} (conns : List (Conn N)) : N → N → Prop where
  | single : ∀ {c : Conn N}, c ∈ conns → HasPath conns c.src c.dst
  | cons : ∀ {c : Conn N} {b : N}, c ∈ conns → HasPath conns c.dst b →
      HasPath conns c.src b

/-- A connection list is acyclic when no node reaches itself through a
nonempty path. -/
def Acyclic {N : Type} (conns : List (Conn N)) : Prop :=
  ∀ a : N, ¬ HasPath conns a a

/-- Along any path, a node ranking that strictly increases across every
connection strictly increases. -/
theorem HasPath.lt_of_mono {N : Type} {conns : List (Conn N)} {f : N → Nat}
    (hmono : ∀ c ∈ conns, f c.src < f c.dst) :
    ∀ {a b : N}, HasPath conns a b → f a < f b := by
  intro a b h
  induction h with
  | single hc => exact hmono _ hc
  | cons hc _ ih => exact lt_trans (hmono _ hc) ih

/-- A connection list admitting a strictly increasing node ranking is
acyclic. -/
theorem acyclic_of_mono {N : Type} (conns : List (Conn N)) (f : N → Nat)
    (hmono : ∀ c ∈ conns, f c.src < f c.dst) : Acyclic conns := by
  intro a h
  exact lt_irrefl _ (HasPath.lt_of_mono hmono h)

/-- A topological ranking of the init_cbf_compt_wf nodes. -/
def CNode.rank : CNode → Nat
  | .inputnode => 0
  | .refinemaskj => 1
  | .csf_tfm => 2
  | .wm_tfm => 2
  | .gm_tfm => 2
  | .extractcbf => 2
  | .computecbf => 3
  | .scorescrub => 4
  | .basilcbf => 4
  | .outputnode => 5

/-- A topological ranking of the init_cbfqc_compt_wf nodes. -/
def QNode.rank : QNode → Nat
  | .inputnode => 0
  | .csf_tfm => 1
  | .wm_tfm => 1
  | .gm_tfm => 1
  | .mask_tfm => 1
  | .resample => 1
  | .qccompute => 2
  | .outputnode => 3

/-- A topological ranking of the init_cbfplot_wf nodes. -/
def PNode.rank : PNode → Nat
  | .inputnode => 0
  | .mrg_xfms => 1
  | .resample_parc => 2
  | .cbftssummary => 3
  | .cbfsummary => 3
  | .scoresummary => 3
  | .scrubsummary => 3
  | .basilsummary => 3
  | .pvcsummary => 3
  | .ds_report_cbftsplot => 4
  | .ds_report_cbfplot => 4
  | .ds_report_scoreplot => 4
  | .ds_report_scrubplot => 4
  | .ds_report_basilplot => 4
  | .ds_report_pvcplot => 4
  | .outputnode => 4

/-- A topological ranking of the init_cbfroiquant_wf nodes. -/
def RNode.rank : RNode → Nat
  | .inputnode => 0
  | .mrg_xfms => 1
  | .trans _ => 2
  | .roi _ _ => 3
  | .outputnode => 4

/-- The traits passed to the BASILCBF interface when init_cbf_compt_wf
constructs the basilcbf node. -/
structure BasilParams where
  m0scale : ℚ
  bolus : ℚ
  m0tr : ℚ
  pvc : Bool
  tis : ℚ
  pcasl : Bool
deriving DecidableEq

/-- The keyword arguments of the `BASILCBF(...)` call in
init_cbf_compt_wf, evaluated left to right exactly as Python does:
`m0scale=metadata["M0"]`, `bolus=metadata["PostLabelingDelay"]`,
`m0tr=metadata['RepetitionTime']`, `pvc=True`,
`tis=np.add(metadata["PostLabelingDelay"], metadata["LabelingDuration"])`,
`pcasl=pcaslorasl(metadata)`. The first missing key raises KeyError. -/
def mkBasilParams (metadata : Metadata) : PyResult BasilParams :=
  match pyKey metadata.M0 "M0" with
  | .raise e => .raise e
  | .ok m0 =>
    match pyKey metadata.PostLabelingDelay "PostLabelingDelay" with
    | .raise e => .raise e
    | .ok bolus =>
      match pyKey metadata.RepetitionTime "RepetitionTime" with
      | .raise e => .raise e
      | .ok m0tr =>
        match pyKey metadata.PostLabelingDelay "PostLabelingDelay" with
        | .raise e => .raise e
        | .ok pld =>
          match pyKey metadata.LabelingDuration "LabelingDuration" with
          | .raise e => .raise e
          | .ok ld =>
            match pcaslorasl metadata with
            | .raise e => .raise e
            | .ok pcasl => .ok ⟨m0, bolus, m0tr, true, pld + ld, pcasl⟩

/-- A constructed CBF-computation workflow: the parameters baked into
the basilcbf node at construction time and the connection list. -/
structure CbfComptWf where
  basil : BasilParams
  conns : List (Conn CNode)
deriving DecidableEq

/-- Construction-time behaviour of init_cbf_compt_wf: all metadata
subscriptions happen while the nodes are created (in the
`BASILCBF(...)` call), before `workflow.connect` runs and before the
workflow object is returned, so any missing key aborts construction
with the corresponding exception. -/
def init_cbf_compt_wf (metadata : Metadata) : PyResult CbfComptWf :=
  match mkBasilParams metadata with
  | .raise e => .raise e
  | .ok bp => .ok ⟨bp, cbfComptConns⟩

/-- The `_pick_csf` selector (`files[-1]`) returns the last element of
any list, and is undefined (IndexError) exactly on the empty list. -/
theorem pick_csf_getLast {α : Type} (l : List α) : _pick_csf l = l.getLast? := by
  cases l with
  | nil => rfl
  | cons x xs =>
    rw [List.getLast?_eq_getElem? (x :: xs)]
    simp only [_pick_csf, pyGet, List.length_cons]
    norm_num

/-- The `_pick_gm` selector (`files[0]`) returns the element at
position 0 of any list of length at least 3. -/
theorem pick_gm_zero {α : Type} (l : List α) (h : 3 ≤ l.length) :
    _pick_gm l = some (l.get ⟨0, by omega⟩) := by
  simp only [_pick_gm, pyGet]
  norm_num

/-- The `_pick_wm` selector (`files[1]`) returns the element at
position 1 of any list of length at least 3. -/
theorem pick_wm_one {α : Type} (l : List α) (h : 3 ≤ l.length) :
    _pick_wm l = some (l.get ⟨1, by omega⟩) := by
  simp only [_pick_wm, pyGet]
  norm_num

/-- The `_pick_csf` selector (`files[-1]`) returns the element at the
last position of any list of length at least 3. -/
theorem pick_csf_last {α : Type} (l : List α) (h : 3 ≤ l.length) :
    _pick_csf l = some (l.get ⟨l.length - 1, by omega⟩) := by
  rw [pick_csf_getLast, List.getLast?_eq_getElem? l,
    List.getElem?_eq_getElem (by omega)]
  simp

/-- C1: in both init_cbf_compt_wf and init_cbfqc_compt_wf, the
connections consuming the ordered tissue-probability-map collection
`t1w_tpms` are exactly the three edges into the csf, white-matter and
grey-matter resampling nodes, tagged with the `_pick_csf`, `_pick_wm`
and `_pick_gm` selectors respectively; and on any collection of length
at least 3 those selectors return the element at position 0 for grey
matter, position 1 for white matter and the last position for CSF. -/
theorem tissue_selector_convention {α : Type} (files : List α)
    (h : 3 ≤ files.length) :
    (cbfComptConns.filter (fun c => c.srcPort == "t1w_tpms") =
      [⟨.inputnode, "t1w_tpms", some .pickCSF, .csf_tfm, "input_image"⟩,
       ⟨.inputnode, "t1w_tpms", some .pickWM, .wm_tfm, "input_image"⟩,
       ⟨.inputnode, "t1w_tpms", some .pickGM, .gm_tfm, "input_image"⟩])
    ∧ (qcConns.filter (fun c => c.srcPort == "t1w_tpms") =
      [⟨.inputnode, "t1w_tpms", some .pickCSF, .csf_tfm, "input_image"⟩,
       ⟨.inputnode, "t1w_tpms", some .pickWM, .wm_tfm, "input_image"⟩,
       ⟨.inputnode, "t1w_tpms", some .pickGM, .gm_tfm, "input_image"⟩])
    ∧ _pick_gm files = some (files.get ⟨0, by omega⟩)
    ∧ _pick_wm files = some (files.get ⟨1, by omega⟩)
    ∧ _pick_csf files = some (files.get ⟨files.length - 1, by omega⟩) :=
  ⟨by decide, by decide, pick_gm_zero files h, pick_wm_one files h,
    pick_csf_last files h⟩

/-- Witness for C1 at the concrete collection ["gm", "wm", "csf"]. -/
theorem tissue_selector_convention_witness :
    _pick_gm ["gm", "wm", "csf"] = some "gm"
    ∧ _pick_wm ["gm", "wm", "csf"] = some "wm"
    ∧ _pick_csf ["gm", "wm", "csf"] = some "csf" := by
  have h := tissue_selector_convention ["gm", "wm", "csf"] (by decide)
  exact ⟨h.2.2.1, h.2.2.2.1, h.2.2.2.2⟩

/-- C2 counterexample: on metadata whose LabelingType is "VSASL"
(neither a CASL nor a PASL marker), `pcaslorasl` reaches `return pcasl`
with the local variable never assigned, so it raises UnboundLocalError
and not the UnrecognizedLabelingTypeError the claim names. -/
theorem pcaslorasl_unrecognized_raises_unbound :
    pcaslorasl ⟨none, none, none, none, some "VSASL"⟩ =
      .raise (.unboundLocalError "pcasl")
    ∧ pcaslorasl ⟨none, none, none, none, some "VSASL"⟩ ≠
      .raise .unrecognizedLabelingTypeError := by decide

/-- C2 (amended): a LabelingType string containing "CASL" resolves the
continuous flag to true, one containing "PASL" but not "CASL" resolves
it to false, and every other string makes `pcaslorasl` raise
UnboundLocalError for the never-assigned local `pcasl` (not a dedicated
UnrecognizedLabelingTypeError). -/
theorem pcaslorasl_resolution (md : Metadata) (lt : String)
    (h : md.LabelingType = some lt) :
    (pyIn "CASL" lt = true → pcaslorasl md = .ok true)
    ∧ (pyIn "CASL" lt = false → pyIn "PASL" lt = true →
        pcaslorasl md = .ok false)
    ∧ (pyIn "CASL" lt = false → pyIn "PASL" lt = false →
        pcaslorasl md = .raise (.unboundLocalError "pcasl")) := by
  refine ⟨fun hc => ?_, fun hc hp => ?_, fun hc hp => ?_⟩ <;>
    simp [pcaslorasl, pyKey, h, hc]
  · simp [hp]
  · simp [hp]

/-- Witness for C2 (amended) at the concrete LabelingType "PCASL". -/
theorem pcaslorasl_resolution_witness :
    (pyIn "CASL" "PCASL" = true →
      pcaslorasl ⟨none, none, none, none, some "PCASL"⟩ = .ok true)
    ∧ (pyIn "CASL" "PCASL" = false → pyIn "PASL" "PCASL" = true →
      pcaslorasl ⟨none, none, none, none, some "PCASL"⟩ = .ok false)
    ∧ (pyIn "CASL" "PCASL" = false → pyIn "PASL" "PCASL" = false →
      pcaslorasl ⟨none, none, none, none, some "PCASL"⟩ =
        .raise (.unboundLocalError "pcasl")) :=
  pcaslorasl_resolution ⟨none, none, none, none, some "PCASL"⟩ "PCASL" rfl

/-- C3 counterexample: init_cbf_compt_wf connects the basic estimator's
out_cbf output to the outlier-robust estimator's in_file input, so two
distinct estimator nodes are directly connected. -/
theorem estimator_crosslink_exists :
    ((⟨CNode.computecbf, "out_cbf", none, CNode.scorescrub, "in_file"⟩ :
        Conn CNode) ∈ cbfComptConns)
    ∧ CNode.isEstimator CNode.computecbf = true
    ∧ CNode.isEstimator CNode.scorescrub = true
    ∧ CNode.computecbf ≠ CNode.scorescrub := by decide

/-- C3 (amended): the only connection of init_cbf_compt_wf from one
estimator node to another is the basic estimator's per-frame CBF output
feeding the outlier-robust estimator (out_cbf to in_file); in
particular the Bayesian estimator reads no other estimator's output and
no estimator reads the Bayesian estimator's output. -/
theorem estimator_isolation :
    ∀ c ∈ cbfComptConns, CNode.isEstimator c.src = true →
      CNode.isEstimator c.dst = true →
      c = ⟨CNode.computecbf, "out_cbf", none, CNode.scorescrub, "in_file"⟩ := by
  decide

/-- Witness for C3 (amended) at the one estimator-to-estimator
connection. -/
theorem estimator_isolation_witness :
    (⟨CNode.computecbf, "out_cbf", none, CNode.scorescrub, "in_file"⟩ :
        Conn CNode) =
      ⟨CNode.computecbf, "out_cbf", none, CNode.scorescrub, "in_file"⟩ :=
  estimator_isolation
    ⟨CNode.computecbf, "out_cbf", none, CNode.scorescrub, "in_file"⟩
    (by decide) (by decide) (by decide)

/-- C4: constructing the CBF-computation workflow with metadata missing
any of M0, PostLabelingDelay, RepetitionTime, LabelingDuration or
LabelingType raises a Python exception while the basilcbf node is being
built, before the workflow object is returned. -/
theorem construction_requires_metadata (md : Metadata)
    (h : md.M0 = none ∨ md.PostLabelingDelay = none ∨
      md.RepetitionTime = none ∨ md.LabelingDuration = none ∨
      md.LabelingType = none) :
    (init_cbf_compt_wf md).raised = true := by
  obtain ⟨m0, pld, rt, ld, lt⟩ := md
  cases m0 <;> cases pld <;> cases rt <;> cases ld <;> cases lt <;>
    simp_all [init_cbf_compt_wf, mkBasilParams, pcaslorasl, pyKey,
      PyResult.raised]

/-- Witness for C4 at concrete metadata missing only M0. -/
theorem construction_requires_metadata_witness :
    (init_cbf_compt_wf ⟨none, some (3/2), some 4, some (9/5),
      some "CASL"⟩).raised = true :=
  construction_requires_metadata
    ⟨none, some (3/2), some 4, some (9/5), some "CASL"⟩ (Or.inl rfl)

/-- C5: the refined-mask output of the mask-refinement node of
init_cbf_compt_wf is connected to the mask input of all three estimator
nodes and of the extraction node, and no connection delivers the raw
functional mask (bold_mask) to an estimator node. -/
theorem refined_mask_feeds_estimators :
    ((⟨CNode.refinemaskj, "out_mask", none, CNode.computecbf, "in_mask"⟩ :
        Conn CNode) ∈ cbfComptConns)
    ∧ ((⟨CNode.refinemaskj, "out_mask", none, CNode.scorescrub, "in_mask"⟩ :
        Conn CNode) ∈ cbfComptConns)
    ∧ ((⟨CNode.refinemaskj, "out_mask", none, CNode.basilcbf, "mask"⟩ :
        Conn CNode) ∈ cbfComptConns)
    ∧ ((⟨CNode.refinemaskj, "out_mask", none, CNode.extractcbf, "in_mask"⟩ :
        Conn CNode) ∈ cbfComptConns)
    ∧ ((cbfComptConns.all fun c =>
        !(c.srcPort == "bold_mask" && CNode.isEstimator c.dst)) = true) := by
  decide

/-- C6: whenever init_cbf_compt_wf builds the BASILCBF node from
metadata carrying M0, PostLabelingDelay, RepetitionTime and
LabelingDuration, the node's inversion time tis equals
PostLabelingDelay + LabelingDuration, its bolus equals
PostLabelingDelay, its calibration scale m0scale equals M0 and its
repetition time m0tr equals RepetitionTime; and when the labeling type
resolves, the node is built with exactly those values. -/
theorem basil_node_params (md : Metadata) (m0 pld rt ld : ℚ)
    (hm : md.M0 = some m0) (hp : md.PostLabelingDelay = some pld)
    (hr : md.RepetitionTime = some rt) (hl : md.LabelingDuration = some ld) :
    (∀ bp : BasilParams, mkBasilParams md = .ok bp →
      bp.tis = pld + ld ∧ bp.bolus = pld ∧ bp.m0scale = m0 ∧ bp.m0tr = rt)
    ∧ (∀ b : Bool, pcaslorasl md = .ok b →
      mkBasilParams md = .ok ⟨m0, pld, rt, true, pld + ld, b⟩) := by
  have hmk : mkBasilParams md =
      match pcaslorasl md with
      | .raise e => .raise e
      | .ok pcasl => .ok ⟨m0, pld, rt, true, pld + ld, pcasl⟩ := by
    unfold mkBasilParams pyKey
    rw [hm, hp, hr, hl]
  constructor
  · intro bp hbp
    rw [hmk] at hbp
    cases hpc : pcaslorasl md with
    | raise e => rw [hpc] at hbp; exact absurd hbp (by simp)
    | ok b =>
      rw [hpc] at hbp
      simp only [PyResult.ok.injEq] at hbp
      subst hbp
      exact ⟨rfl, rfl, rfl, rfl⟩
  · intro b hb
    rw [hmk, hb]

/-- Witness for C6 at concrete complete metadata (M0 = 1,
PostLabelingDelay = 3/2, RepetitionTime = 4, LabelingDuration = 9/5,
LabelingType = "CASL"). -/
theorem basil_node_params_witness :
    (∀ bp : BasilParams,
      mkBasilParams ⟨some 1, some (3/2), some 4, some (9/5), some "CASL"⟩ =
        .ok bp →
      bp.tis = 3/2 + 9/5 ∧ bp.bolus = 3/2 ∧ bp.m0scale = 1 ∧ bp.m0tr = 4)
    ∧ (∀ b : Bool,
      pcaslorasl ⟨some 1, some (3/2), some 4, some (9/5), some "CASL"⟩ =
        .ok b →
      mkBasilParams ⟨some 1, some (3/2), some 4, some (9/5), some "CASL"⟩ =
        .ok ⟨1, 3/2, 4, true, 3/2 + 9/5, b⟩) :=
  basil_node_params ⟨some 1, some (3/2), some 4, some (9/5), some "CASL"⟩
    1 (3/2) 4 (9/5) rfl rfl rfl rfl

/-- C7: in init_cbfroiquant_wf each atlas has exactly one resampling
node, whose projected output is connected to the atlasfile input of
exactly five region-quantification nodes (one per CBF variant, with
matching atlas), there are exactly 25 region-quantification nodes and
exactly 25 connections into the output pseudo-node, each carrying one
region-quantification node's atlascsv table to the output field named
after its (variant, atlas) pair. -/
theorem roiquant_fanout :
    ((Atlas.all.all fun a =>
      (rqNodes.countP fun n => n == RNode.trans a) == 1) = true)
    ∧ ((Atlas.all.all fun a =>
      (rqConns.countP fun c =>
        c.src == RNode.trans a && c.dstPort == "atlasfile") == 5) = true)
    ∧ ((rqConns.all fun c => !(c.dstPort == "atlasfile") ||
        (match c.src, c.dst with
         | .trans a, .roi _ a2 =>
            a == a2 && c.srcPort == "output_image" && c.sel == none
         | _, _ => false)) = true)
    ∧ ((Variant.all.all fun v => Atlas.all.all fun a =>
      (rqConns.countP fun c =>
        c.dst == RNode.roi v a && c.dstPort == "atlasfile") == 1) = true)
    ∧ (rqNodes.countP RNode.isRoi = 25)
    ∧ ((rqConns.countP fun c => c.dst == RNode.outputnode) = 25)
    ∧ ((rqConns.all fun c =>
        (match c.src with
         | .roi v a => c.dst == RNode.outputnode &&
            c.srcPort == "atlascsv" &&
            c.dstPort == (v.port ++ "_" ++ a.tag)
         | _ => !(c.dst == RNode.outputnode))) = true) := by
  refine ⟨by decide, by decide, by decide, by decide, by decide, by decide,
    by decide⟩

/-- C8: in init_cbfroiquant_wf and init_cbfplot_wf the transform-merge
node receives the anatomical-to-functional transform on in1 and the
standard-to-anatomical transform on in2 (its only two inputs), its
merged output feeds the transforms input of every atlas/segmentation
projection node, and a Merge(2) node outputs exactly the two-element
list [in1 value, in2 value] in that order. -/
theorem transform_chain_order :
    ((⟨RNode.inputnode, "t1_bold_xform", none, RNode.mrg_xfms, "in1"⟩ :
        Conn RNode) ∈ rqConns)
    ∧ ((⟨RNode.inputnode, "std2anat_xfm", none, RNode.mrg_xfms, "in2"⟩ :
        Conn RNode) ∈ rqConns)
    ∧ ((rqConns.countP fun c => c.dst == RNode.mrg_xfms) = 2)
    ∧ ((Atlas.all.all fun a => rqConns.contains
        ⟨RNode.mrg_xfms, "out", none, RNode.trans a, "transforms"⟩) = true)
    ∧ ((⟨PNode.inputnode, "t1_bold_xform", none, PNode.mrg_xfms, "in1"⟩ :
        Conn PNode) ∈ plotConns)
    ∧ ((⟨PNode.inputnode, "std2anat_xfm", none, PNode.mrg_xfms, "in2"⟩ :
        Conn PNode) ∈ plotConns)
    ∧ ((plotConns.countP fun c => c.dst == PNode.mrg_xfms) = 2)
    ∧ ((⟨PNode.mrg_xfms, "out", none, PNode.resample_parc, "transforms"⟩ :
        Conn PNode) ∈ plotConns)
    ∧ (∀ (α : Type) (anat2func std2anat : α),
        mergeOut anat2func std2anat = [anat2func, std2anat]) :=
  ⟨by decide, by decide, by decide, by decide, by decide, by decide,
    by decide, by decide, fun _ _ _ => rfl⟩

/-- C9: the declared node/connection graphs of all four workflow
constructors (init_cbf_compt_wf, init_cbfqc_compt_wf, init_cbfplot_wf,
init_cbfroiquant_wf) are acyclic: no node reaches itself through a
nonempty chain of connections. -/
theorem workflows_acyclic :
    Acyclic cbfComptConns ∧ Acyclic qcConns ∧ Acyclic plotConns ∧
      Acyclic rqConns :=
  ⟨acyclic_of_mono _ CNode.rank (by decide),
   acyclic_of_mono _ QNode.rank (by decide),
   acyclic_of_mono _ PNode.rank (by decide),
   acyclic_of_mono _ RNode.rank (by decide)⟩

/-- C10: in init_cbfqc_compt_wf the standard-space functional mask
input bold_mask_std is consumed only through the `_pick_csf`
last-element selector, on exactly two connections: the QC node's
in_boldmaskstd port and the master (geometry reference) port of the
template brain-mask resampling node; and `_pick_csf` returns the last
element of any collection. -/
theorem qc_std_mask_selector :
    ((⟨QNode.inputnode, "bold_mask_std", some Sel.pickCSF, QNode.qccompute,
        "in_boldmaskstd"⟩ : Conn QNode) ∈ qcConns)
    ∧ ((⟨QNode.inputnode, "bold_mask_std", some Sel.pickCSF, QNode.resample,
        "master"⟩ : Conn QNode) ∈ qcConns)
    ∧ ((qcConns.countP fun c => c.srcPort == "bold_mask_std") = 2)
    ∧ ((qcConns.all fun c =>
        !(c.srcPort == "bold_mask_std") || c.sel == some Sel.pickCSF) = true)
    ∧ (∀ (α : Type) (l : List α), _pick_csf l = l.getLast?) :=
  ⟨by decide, by decide, by decide, by decide, fun _ l => pick_csf_getLast l⟩

end Aslprep
